import Mathlib

/-!
Verification of the Traefik monitoring script (`monitoring.js`).

The script is shallowly embedded: the per-service health check
(`checkService`), the alert generation (`generateAlerts`), the cycle
(`runCheck`) and the metrics persistence (JSON encode/decode, `load`,
`save`) are translated into pure Lean functions.  Network I/O is
abstracted by a `ProbeOutcome` value describing what the wire did
(timer fired first, a response arrived, or the connection errored),
and wall-clock reads (`new Date().toISOString()`, `Date.now()`) are
passed in as explicit parameters.
-/

namespace Monitoring

/-- Health classification of one probe (`checkService` resolves exactly one
of these four strings as `status`). -/
inductive Status where
  | HEALTHY
  | UNHEALTHY
  | TIMEOUT
  | ERROR
deriving DecidableEq, Repr

/-- The string the script stores for each status value. -/
def statusName : Status → String
  | .HEALTHY => "HEALTHY"
  | .UNHEALTHY => "UNHEALTHY"
  | .TIMEOUT => "TIMEOUT"
  | .ERROR => "ERROR"

/-- Certificate information attached to a probe result
(`certInfo` object built in `checkService`, lines 107-111). -/
structure CertInfo where
  issuer : String
  expirationDate : String
  daysToExpiration : Int
deriving DecidableEq, Repr

/-- One entry of `config.services` (name, url, expectedStatus, timeout). -/
structure ServiceTarget where
  name : String
  url : String
  expectedStatus : Nat
  timeout : Nat
deriving DecidableEq, Repr

/-- The `config.thresholds` object (responseTime in ms, certExpirationDays in days). -/
structure Thresholds where
  responseTime : Nat
  certExpirationDays : Nat
deriving DecidableEq, Repr

/-- A probe result, as resolved by `checkService`.  JavaScript object fields
that some resolution paths omit (`statusCode`, `responseTime`,
`certificate`, `error`, `timestamp`) are `Option`s; `none` stands for an
absent/undefined field as well as for the explicit `null` the code stores
for a missing certificate — JSON round-tripping identifies the two. -/
structure ProbeResult where
  name : String
  url : String
  status : Status
  statusCode : Option Nat
  responseTime : Option Nat
  certificate : Option CertInfo
  error : Option String
  timestamp : Option String
deriving DecidableEq, Repr

/-- Raw peer certificate as surfaced by `res.socket.getPeerCertificate()`
when it has a `valid_to` field: the issuer common name (possibly absent),
the `valid_to` instant in epoch milliseconds, and its ISO-8601 rendering
(`new Date(cert.valid_to).toISOString()`). -/
structure RawCert where
  issuerCN : Option String
  validToMs : Int
  validToIso : String
deriving DecidableEq, Repr

/-- What the network did for one probe: either the `setTimeout` timer fired
first, or a response arrived first (with its HTTP status code, the elapsed
milliseconds, the peer certificate if the socket exposed one with a
`valid_to`, the current epoch milliseconds, and the current ISO timestamp),
or the request emitted an error first. -/
inductive ProbeOutcome where
  | timeout
  | response (code : Nat) (elapsed : Nat) (peer : Option RawCert)
      (nowMs : Int) (nowIso : String)
  | connError (msg : String) (nowIso : String)
deriving DecidableEq, Repr

/-- Integer form of `Math.ceil(a / b)` for positive `b`
(used for days-to-expiration, line 105). -/
def ceilDiv (a b : Int) : Int := -((-a).fdiv b)

/-- Milliseconds in a day: `1000 * 60 * 60 * 24` (line 105). -/
def msPerDay : Int := 86400000

/-- JavaScript `String.prototype.startsWith`: prefix test. -/
def jsStartsWith (s p : String) : Bool :=
  decide (p.toList <+: s.toList)

/-- The `certInfo` computation of `checkService` (lines 100-113): populated
only when the URL starts with "https" and the socket exposed a peer
certificate carrying `valid_to`. -/
def certInfoOf (service : ServiceTarget) (peer : Option RawCert)
    (nowMs : Int) : Option CertInfo :=
  if jsStartsWith service.url ("https") then
    peer.map fun cert =>
      { issuer := cert.issuerCN.getD ("Unknown")
        expirationDate := cert.validToIso
        daysToExpiration := ceilDiv (cert.validToMs - nowMs) msPerDay }
  else
    none

/-- The function `checkService` (lines 79-139) as a function of the service target and
the abstract network outcome.  Each branch mirrors one `resolve(...)` call:
the timeout handler (lines 86-92), the response handler (lines 117-125),
and the error handler (lines 130-136). -/
def checkService (th : Thresholds) (service : ServiceTarget) :
    ProbeOutcome → ProbeResult
  | .timeout =>
    { name := service.name
      url := service.url
      status := .TIMEOUT
      statusCode := none
      responseTime := some (th.responseTime + 1)
      certificate := none
      error := some ("Request timed out")
      timestamp := none }
  | .response code elapsed peer nowMs nowIso =>
    { name := service.name
      url := service.url
      status := if code = service.expectedStatus then .HEALTHY else .UNHEALTHY
      statusCode := some code
      responseTime := some elapsed
      certificate := certInfoOf service peer nowMs
      error := none
      timestamp := some nowIso }
  | .connError msg nowIso =>
    { name := service.name
      url := service.url
      status := .ERROR
      statusCode := none
      responseTime := none
      certificate := none
      error := some msg
      timestamp := some nowIso }

/-- Alert severity (`'HIGH'` or `'MEDIUM'`). -/
inductive Level where
  | HIGH
  | MEDIUM
deriving DecidableEq, Repr

/-- An alert object as pushed by `generateAlerts`. -/
structure Alert where
  level : Level
  service : String
  message : String
  timestamp : String
deriving DecidableEq, Repr

/-- The interpolation `${result.error || result.statusCode}` (line 168):
a truthy error string wins, otherwise the status code is rendered (an
absent code would render as "undefined"); the empty string is falsy. -/
def errorOrCode (r : ProbeResult) : String :=
  let codeStr := match r.statusCode with
    | some c => toString c
    | none => "undefined"
  match r.error with
  | some e => if e = "" then codeStr else e
  | none => codeStr

/-- The rule-1 message `` `${result.name} is ${result.status}:
${result.error || result.statusCode}` `` (line 168). -/
def statusMessage (r : ProbeResult) : String :=
  r.name ++ " is " ++ statusName r.status ++ ": " ++ errorOrCode r

/-- Rule 1 of `generateAlerts` (lines 164-171): a HIGH alert for every
ERROR / UNHEALTHY / TIMEOUT result. -/
def statusAlerts (now : String) (r : ProbeResult) : List Alert :=
  if r.status = .ERROR ∨ r.status = .UNHEALTHY ∨ r.status = .TIMEOUT then
    [{ level := .HIGH
       service := r.name
       message := statusMessage r
       timestamp := now }]
  else
    []

/-- Rule 2 of `generateAlerts` (lines 172-179): a MEDIUM alert when the
response time exceeds the threshold.  An absent `responseTime` compares
as `undefined > n`, which is false in JavaScript. -/
def responseTimeAlerts (th : Thresholds) (now : String) (r : ProbeResult) :
    List Alert :=
  match r.responseTime with
  | some t =>
    if th.responseTime < t then
      [{ level := .MEDIUM
         service := r.name
         message := r.name ++ " response time (" ++ toString t ++
           "ms) exceeds threshold (" ++ toString th.responseTime ++ "ms)"
         timestamp := now }]
    else
      []
  | none => []

/-- The rule-3 message `` `SSL Certificate for ${result.name} expires in
${result.certificate.daysToExpiration} days` `` (line 185). -/
def certMessage (name : String) (days : Int) : String :=
  "SSL Certificate for " ++ name ++ " expires in " ++ toString days ++ " days"

/-- Rule 3 of `generateAlerts` (lines 181-188): a HIGH alert when
certificate info is present and its days-to-expiration is below the
configured threshold. -/
def certAlerts (th : Thresholds) (now : String) (r : ProbeResult) :
    List Alert :=
  match r.certificate with
  | some c =>
    if c.daysToExpiration < (th.certExpirationDays : Int) then
      [{ level := .HIGH
         service := r.name
         message := certMessage r.name c.daysToExpiration
         timestamp := now }]
    else
      []
  | none => []

/-- The body of the per-result `forEach` in `generateAlerts`
(lines 163-189): the three rules push in order. -/
def serviceAlerts (th : Thresholds) (now : String) (r : ProbeResult) :
    List Alert :=
  statusAlerts now r ++ responseTimeAlerts th now r ++ certAlerts th now r

/-- JavaScript `String.prototype.includes`: substring containment. -/
def jsIncludes (s sub : String) : Bool :=
  decide (sub.toList <:+: s.toList)

/-- The container block of `generateAlerts` (lines 191-202): when the
container mapping is present, a HIGH alert for each container whose status
string does not contain "Up ". -/
def containerAlerts (now : String) :
    Option (List (String × String)) → List Alert
  | none => []
  | some cs =>
    cs.filterMap fun p =>
      if jsIncludes p.2 ("Up ") then
        none
      else
        some { level := .HIGH
               service := p.1
               message := "Container " ++ p.1 ++ " is not running: " ++ p.2
               timestamp := now }

/-- The function `generateAlerts(serviceResults, containerStatus)`
(lines 160-205).
The container mapping is `none` when `checkContainers` resolved an error
object (`containerStatus.containers` is then undefined).  All the alert
timestamps of one call are modelled by the single instant `now`. -/
def generateAlerts (th : Thresholds) (results : List ProbeResult)
    (containers : Option (List (String × String))) (now : String) :
    List Alert :=
  results.flatMap (serviceAlerts th now) ++ containerAlerts now containers

/-- Resolution of `checkContainers` (lines 141-158): either an error object
(`{ error }`) or a parsed name-to-status mapping (`{ containers }`).
A JavaScript object is modelled as an association list in insertion
order. -/
inductive ContainerOutcome where
  | err (msg : String)
  | ok (containers : List (String × String))
deriving DecidableEq, Repr

/-- The field `containerStatus.containers`: undefined (`none`) on the error path. -/
def containersOf : ContainerOutcome → Option (List (String × String))
  | .err _ => none
  | .ok cs => some cs

/-- The in-memory `metrics` object (lines 63-67 and §6 schema): last-check
timestamp, service-name-to-latest-result mapping, latest container mapping
(absent before the first cycle or when inspection failed), latest alert
list.  Objects are association lists in insertion order. -/
structure Metrics where
  lastCheck : Option String
  services : List (String × ProbeResult)
  containerStatus : Option (List (String × String))
  alerts : List Alert
deriving DecidableEq, Repr

/-- The initial `metrics` value (lines 63-67): `lastCheck: null`,
empty services, no containerStatus key, empty alerts. -/
def initialMetrics : Metrics :=
  { lastCheck := none, services := [], containerStatus := none, alerts := [] }

/-- JavaScript property assignment `obj[k] = v` on an object modelled as an
association list: an existing key keeps its position and gets the new
value; a new key is appended at the end. -/
def upsert (l : List (String × ProbeResult)) (k : String) (v : ProbeResult) :
    List (String × ProbeResult) :=
  match l with
  | [] => [(k, v)]
  | p :: rest => if p.1 = k then (k, v) :: rest else p :: upsert rest k v

/-- Number of entries of an association list under a given key. -/
def countKey (l : List (String × ProbeResult)) (k : String) : Nat :=
  (l.filter fun p => p.1 = k).length

/-- The fan-out of `runCheck` (line 210): one `checkService` per configured
service, in configuration order; `outs` gives each probe's network
outcome. -/
def probeAll (th : Thresholds) (services : List ServiceTarget)
    (outs : ServiceTarget → ProbeOutcome) : List ProbeResult :=
  services.map fun s => checkService th s (outs s)

/-- The state update of `runCheck` (lines 215-222): compute the alerts,
stamp `lastCheck`, merge every result into the service mapping by name,
overwrite `containerStatus` and `alerts`. -/
def runCheck (th : Thresholds) (m : Metrics) (results : List ProbeResult)
    (co : ContainerOutcome) (now : String) : Metrics :=
  { lastCheck := some now
    services := results.foldl (fun acc r => upsert acc r.name r) m.services
    containerStatus := containersOf co
    alerts := generateAlerts th results (containersOf co) now }

/-- The `config.services` list of the script (lines 25-50). -/
def configServices : List ServiceTarget :=
  [ { name := "Traefik Dashboard"
      url := "https://traefik.propertyapp.duckdns.org/dashboard/"
      expectedStatus := 200
      timeout := 5000 }
  , { name := "NASA App"
      url := "https://majortomtogroundcontrol.duckdns.org"
      expectedStatus := 200
      timeout := 5000 }
  , { name := "Property App Frontend"
      url := "https://propertyapp.duckdns.org"
      expectedStatus := 200
      timeout := 5000 }
  , { name := "Property App API"
      url := "https://propertyapp.duckdns.org/api/repair/users"
      expectedStatus := 200
      timeout := 5000 } ]

/-- The `config.thresholds` of the script (lines 52-55). -/
def configThresholds : Thresholds :=
  { responseTime := 1500, certExpirationDays := 14 }

/-- A JSON value, at the level `JSON.stringify` / `JSON.parse` operate on.
Objects are key-value lists in insertion order; the numbers occurring in a
snapshot are integers. -/
inductive Json where
  | null
  | str (s : String)
  | num (n : Int)
  | arr (xs : List Json)
  | obj (fields : List (String × Json))
deriving Repr

/-- A key-value pair emitted only when the value is present
(`JSON.stringify` drops undefined-valued fields). -/
def optField (k : String) : Option Json → List (String × Json)
  | none => []
  | some j => [(k, j)]

/-- Serialization of a certificate-info object. -/
def encodeCert (c : CertInfo) : Json :=
  .obj [("issuer", .str c.issuer),
        ("expirationDate", .str c.expirationDate),
        ("daysToExpiration", .num c.daysToExpiration)]

/-- Serialization of a probe result: the always-present fields in
construction order, then each optional field when present. -/
def encodeResult (r : ProbeResult) : Json :=
  .obj ([("name", .str r.name), ("url", .str r.url),
         ("status", .str (statusName r.status))] ++
    optField ("statusCode") (r.statusCode.map fun n => .num n) ++
    optField ("responseTime") (r.responseTime.map fun n => .num n) ++
    optField ("certificate") (r.certificate.map encodeCert) ++
    optField ("error") (r.error.map .str) ++
    optField ("timestamp") (r.timestamp.map .str))

/-- The string the script stores for each alert level. -/
def levelName : Level → String
  | .HIGH => "HIGH"
  | .MEDIUM => "MEDIUM"

/-- Serialization of an alert object. -/
def encodeAlert (a : Alert) : Json :=
  .obj [("level", .str (levelName a.level)),
        ("service", .str a.service),
        ("message", .str a.message),
        ("timestamp", .str a.timestamp)]

/-- Serialization `JSON.stringify(metrics)` at the JSON-value level (§6 schema): a null
`lastCheck` is emitted as `null`, while an undefined `containerStatus` key
is dropped. -/
def encodeMetrics (m : Metrics) : Json :=
  .obj ([("lastCheck", match m.lastCheck with
            | none => .null
            | some s => .str s),
         ("services", .obj (m.services.map fun p => (p.1, encodeResult p.2))),
         ("alerts", .arr (m.alerts.map encodeAlert))] ++
    optField ("containerStatus")
      ((m.containerStatus).map fun cs => .obj (cs.map fun p => (p.1, .str p.2))))

/-- First field of a JSON object under a given key. -/
def getField (fields : List (String × Json)) (k : String) : Option Json :=
  (fields.find? fun p => p.1 = k).map fun p => p.2

/-- Reads a JSON string value. -/
def asStr : Json → Option String
  | .str s => some s
  | _ => none

/-- Reads a JSON integer value. -/
def asNum : Json → Option Int
  | .num n => some n
  | _ => none

/-- Reads a JSON integer value as a natural number. -/
def asNat (j : Json) : Option Nat :=
  (asNum j).bind fun n => if 0 ≤ n then some n.toNat else none

/-- Parses a status string back to the enumeration. -/
def parseStatus (s : String) : Option Status :=
  if s = "HEALTHY" then some .HEALTHY
  else if s = "UNHEALTHY" then some .UNHEALTHY
  else if s = "TIMEOUT" then some .TIMEOUT
  else if s = "ERROR" then some .ERROR
  else none

/-- Parses a level string back to the enumeration. -/
def parseLevel (s : String) : Option Level :=
  if s = "HIGH" then some .HIGH
  else if s = "MEDIUM" then some .MEDIUM
  else none

/-- Reads an optional field: an absent key is `none`; a present key must
decode. -/
def getOptField (fields : List (String × Json)) (k : String)
    (dec : Json → Option α) : Option (Option α) :=
  match getField fields k with
  | none => some none
  | some j => (dec j).map some

/-- Recovers a certificate-info object from its serialization. -/
def decodeCert : Json → Option CertInfo
  | .obj fs => do
    let issuer ← (getField fs ("issuer")).bind asStr
    let expirationDate ← (getField fs ("expirationDate")).bind asStr
    let daysToExpiration ← (getField fs ("daysToExpiration")).bind asNum
    pure { issuer, expirationDate, daysToExpiration }
  | _ => none

/-- Recovers a probe result from its serialization. -/
def decodeResult : Json → Option ProbeResult
  | .obj fs => do
    let name ← (getField fs ("name")).bind asStr
    let url ← (getField fs ("url")).bind asStr
    let status ← ((getField fs ("status")).bind asStr).bind parseStatus
    let statusCode ← getOptField fs ("statusCode") asNat
    let responseTime ← getOptField fs ("responseTime") asNat
    let certificate ← getOptField fs ("certificate") decodeCert
    let error ← getOptField fs ("error") asStr
    let timestamp ← getOptField fs ("timestamp") asStr
    pure { name, url, status, statusCode, responseTime, certificate, error,
           timestamp }
  | _ => none

/-- Recovers an alert from its serialization. -/
def decodeAlert : Json → Option Alert
  | .obj fs => do
    let level ← ((getField fs ("level")).bind asStr).bind parseLevel
    let service ← (getField fs ("service")).bind asStr
    let message ← (getField fs ("message")).bind asStr
    let timestamp ← (getField fs ("timestamp")).bind asStr
    pure { level, service, message, timestamp }
  | _ => none

/-- Recovers an association list of probe results, entry by entry. -/
def decodeServiceList : List (String × Json) →
    Option (List (String × ProbeResult))
  | [] => some []
  | p :: rest => do
    let r ← decodeResult p.2
    let rest' ← decodeServiceList rest
    pure ((p.1, r) :: rest')

/-- Recovers the service mapping from its serialization. -/
def decodeServices (j : Json) : Option (List (String × ProbeResult)) :=
  match j with
  | .obj fs => decodeServiceList fs
  | _ => none

/-- Recovers a list of alerts, entry by entry. -/
def decodeAlertList : List Json → Option (List Alert)
  | [] => some []
  | j :: rest => do
    let a ← decodeAlert j
    let rest' ← decodeAlertList rest
    pure (a :: rest')

/-- Recovers an association list of container status strings. -/
def decodeContainerList : List (String × Json) →
    Option (List (String × String))
  | [] => some []
  | p :: rest => do
    let s ← asStr p.2
    let rest' ← decodeContainerList rest
    pure ((p.1, s) :: rest')

/-- Recovers a container mapping from its serialization. -/
def decodeContainers (j : Json) : Option (List (String × String)) :=
  match j with
  | .obj fs => decodeContainerList fs
  | _ => none

/-- Recovers a metrics snapshot from its serialization: the inverse
interpretation `JSON.parse` gives a stringified snapshot. -/
def decodeMetrics : Json → Option Metrics
  | .obj fs => do
    let lastCheck ← match getField fs ("lastCheck") with
      | some .null => some none
      | some (.str s) => some (some s)
      | _ => none
    let services ← (getField fs ("services")).bind decodeServices
    let alerts ← match getField fs ("alerts") with
      | some (.arr xs) => decodeAlertList xs
      | _ => none
    let containerStatus ← getOptField fs ("containerStatus") decodeContainers
    pure { lastCheck, services, containerStatus, alerts }
  | _ => none

/-- State of the metrics file on disk: absent, present but not valid JSON,
or holding a JSON value. -/
inductive FileState where
  | absent
  | malformed
  | content (j : Json)

/-- The load-time logic (lines 70-76): keep the default `metrics` when the
file does not exist; `JSON.parse` the contents otherwise, falling back to
the default when parsing throws (the `catch` only logs).  The script
assigns the parsed value untyped; the model represents the parse result
through `decodeMetrics`, whose failure cases (valid JSON that is not a
snapshot) also keep the default. -/
def load : FileState → Metrics
  | .absent => initialMetrics
  | .malformed => initialMetrics
  | .content j => (decodeMetrics j).getD initialMetrics

/-- The write `fs.writeFileSync(config.metricsFile,
JSON.stringify(metrics, null, 2))` (line 224): the file now holds the serialized snapshot. -/
def save (m : Metrics) : FileState :=
  .content (encodeMetrics m)

/-! Round-trip lemmas for the persistence layer -/

theorem parseStatus_statusName (st : Status) :
    parseStatus (statusName st) = some st := by
  cases st <;> simp [parseStatus, statusName]

theorem parseLevel_levelName (lv : Level) :
    parseLevel (levelName lv) = some lv := by
  cases lv <;> simp [parseLevel, levelName]

theorem asNat_num_natCast (n : Nat) : asNat (.num (n : Int)) = some n := by
  simp [asNat, asNum]

theorem decodeCert_encodeCert (c : CertInfo) :
    decodeCert (encodeCert c) = some c := by
  simp [decodeCert, encodeCert, getField, asStr, asNum]

theorem decodeResult_encodeResult (r : ProbeResult) :
    decodeResult (encodeResult r) = some r := by
  obtain ⟨name, url, status, statusCode, responseTime, certificate, error,
    timestamp⟩ := r
  cases statusCode <;> cases responseTime <;> cases certificate <;>
    cases error <;> cases timestamp <;>
    simp [decodeResult, encodeResult, optField, getField, getOptField, asStr,
      asNat_num_natCast, parseStatus_statusName, decodeCert_encodeCert]

theorem decodeAlert_encodeAlert (a : Alert) :
    decodeAlert (encodeAlert a) = some a := by
  simp [decodeAlert, encodeAlert, getField, asStr, parseLevel_levelName]

theorem decodeServiceList_encode (l : List (String × ProbeResult)) :
    decodeServiceList (l.map fun p => (p.1, encodeResult p.2)) = some l := by
  induction l with
  | nil => rfl
  | cons p rest ih =>
    simp [decodeServiceList, decodeResult_encodeResult, ih]

theorem decodeAlertList_encode (l : List Alert) :
    decodeAlertList (l.map encodeAlert) = some l := by
  induction l with
  | nil => rfl
  | cons a rest ih =>
    simp [decodeAlertList, decodeAlert_encodeAlert, ih]

theorem decodeContainerList_encode (l : List (String × String)) :
    decodeContainerList (l.map fun p => (p.1, .str p.2)) = some l := by
  induction l with
  | nil => rfl
  | cons p rest ih =>
    simp [decodeContainerList, asStr, ih]

/-- A stringified snapshot parses back to the same snapshot. -/
theorem decodeMetrics_encodeMetrics (m : Metrics) :
    decodeMetrics (encodeMetrics m) = some m := by
  obtain ⟨lastCheck, services, containerStatus, alerts⟩ := m
  cases lastCheck <;> cases containerStatus <;>
    simp [decodeMetrics, encodeMetrics, optField, getField, getOptField,
      decodeServices, decodeContainers, decodeServiceList_encode,
      decodeAlertList_encode, decodeContainerList_encode]

/-! Service-mapping lemmas (JavaScript object assignment) -/

theorem checkService_name (th : Thresholds) (s : ServiceTarget)
    (o : ProbeOutcome) : (checkService th s o).name = s.name := by
  cases o <;> rfl

theorem countKey_eq_zero_of_not_mem {l : List (String × ProbeResult)}
    {k : String} (h : k ∉ l.map Prod.fst) : countKey l k = 0 := by
  induction l with
  | nil => rfl
  | cons p rest ih =>
    simp only [List.map_cons, List.mem_cons, not_or] at h
    simp [countKey, List.filter_cons, Ne.symm h.1, ih h.2] at *
    exact ih h.2

theorem countKey_upsert_self {l : List (String × ProbeResult)}
    (h : (l.map Prod.fst).Nodup) (k : String) (v : ProbeResult) :
    countKey (upsert l k v) k = 1 := by
  induction l with
  | nil => simp [upsert, countKey]
  | cons p rest ih =>
    simp only [List.map_cons, List.nodup_cons] at h
    by_cases hk : p.1 = k
    · subst hk
      have h0 : countKey rest p.1 = 0 := countKey_eq_zero_of_not_mem h.1
      simp [upsert, countKey, List.filter_cons] at *
      exact h0
    · simp [upsert, hk, countKey, List.filter_cons] at *
      exact ih h.2

theorem countKey_upsert_ne {l : List (String × ProbeResult)}
    {k' k : String} (h : k' ≠ k) (v : ProbeResult) :
    countKey (upsert l k' v) k = countKey l k := by
  induction l with
  | nil => simp [upsert, countKey, h]
  | cons p rest ih =>
    by_cases hk : p.1 = k'
    · subst hk
      simp [upsert, countKey, List.filter_cons, h]
    · simp [upsert, hk, countKey, List.filter_cons] at *
      split <;> simp [ih]

theorem mem_map_fst_upsert {l : List (String × ProbeResult)}
    {a k : String} {v : ProbeResult} :
    a ∈ (upsert l k v).map Prod.fst ↔ a ∈ l.map Prod.fst ∨ a = k := by
  induction l with
  | nil => simp [upsert]
  | cons p rest ih =>
    by_cases hk : p.1 = k
    · subst hk
      simp [upsert]
      tauto
    · simp [upsert, hk, ih]
      tauto

theorem nodup_upsert {l : List (String × ProbeResult)}
    (h : (l.map Prod.fst).Nodup) (k : String) (v : ProbeResult) :
    ((upsert l k v).map Prod.fst).Nodup := by
  induction l with
  | nil => simp [upsert]
  | cons p rest ih =>
    simp only [List.map_cons, List.nodup_cons] at h
    by_cases hk : p.1 = k
    · subst hk
      simp [upsert, h.1, h.2]
    · rw [show upsert (p :: rest) k v = p :: upsert rest k v by
        simp [upsert, hk]]
      simp only [List.map_cons, List.nodup_cons]
      refine ⟨fun hm => ?_, ih h.2⟩
      rcases mem_map_fst_upsert.mp hm with hm | hm
      · exact h.1 hm
      · exact hk hm

/-- Merging a batch of results into a duplicate-free service mapping puts
the count of a name at `1` exactly when the batch mentions it, and leaves
it unchanged otherwise. -/
theorem countKey_foldl_upsert (rs : List ProbeResult)
    (l : List (String × ProbeResult)) (k : String)
    (h : (l.map Prod.fst).Nodup) :
    countKey (rs.foldl (fun acc r => upsert acc r.name r) l) k =
      if k ∈ rs.map ProbeResult.name then 1 else countKey l k := by
  induction rs generalizing l with
  | nil => simp
  | cons r rest ih =>
    simp only [List.foldl_cons, List.map_cons, List.mem_cons]
    rw [ih _ (nodup_upsert h r.name r)]
    by_cases hrest : k ∈ rest.map ProbeResult.name
    · simp [hrest]
    · by_cases hr : k = r.name
      · subst hr
        simp [hrest, countKey_upsert_self h]
      · simp [hrest, hr, countKey_upsert_ne (Ne.symm hr)]

theorem probeAll_names (th : Thresholds) (services : List ServiceTarget)
    (outs : ServiceTarget → ProbeOutcome) :
    (probeAll th services outs).map ProbeResult.name =
      services.map ServiceTarget.name := by
  simp [probeAll, List.map_map, Function.comp_def, checkService_name]

/-! Container-alert lemmas -/

theorem containerAlerts_filter_of_not_mem (cs : List (String × String))
    (n : String) (now : String) (h : n ∉ cs.map Prod.fst) :
    (containerAlerts now (some cs)).filter (fun a => a.service = n) = [] := by
  induction cs with
  | nil => rfl
  | cons p rest ih =>
    simp only [List.map_cons, List.mem_cons, not_or] at h
    by_cases hUp : jsIncludes p.2 ("Up ") = true
    · simpa [containerAlerts, List.filterMap_cons, hUp] using ih h.2
    · simpa [containerAlerts, List.filterMap_cons, hUp, List.filter_cons,
        Ne.symm h.1] using ih h.2

/-- In a duplicate-free container mapping, the alerts naming container `n`
with status `s` are exactly one HIGH not-running alert when `s` lacks
"Up ", and nothing when it contains it. -/
theorem containerAlerts_filter_mem (cs : List (String × String))
    (n s : String) (now : String) (hnd : (cs.map Prod.fst).Nodup)
    (hmem : (n, s) ∈ cs) :
    (containerAlerts now (some cs)).filter (fun a => a.service = n) =
      if jsIncludes s ("Up ") then [] else
        [{ level := .HIGH
           service := n
           message := "Container " ++ n ++ " is not running: " ++ s
           timestamp := now }] := by
  induction cs with
  | nil => cases hmem
  | cons p rest ih =>
    simp only [List.map_cons, List.nodup_cons] at hnd
    rcases List.mem_cons.mp hmem with hp | hp
    · cases hp
      have hrest := containerAlerts_filter_of_not_mem rest n now hnd.1
      by_cases hUp : jsIncludes s ("Up ") = true
      · simpa [containerAlerts, List.filterMap_cons, hUp] using hrest
      · simpa [containerAlerts, List.filterMap_cons, hUp,
          List.filter_cons] using hrest
    · have hne : p.1 ≠ n := by
        intro hEq
        exact hnd.1 (hEq ▸ List.mem_map_of_mem Prod.fst hp)
      have hrec := ih hnd.2 hp
      by_cases hUp : jsIncludes p.2 ("Up ") = true
      · simpa [containerAlerts, List.filterMap_cons, hUp] using hrec
      · simpa [containerAlerts, List.filterMap_cons, hUp, List.filter_cons,
          hne] using hrec

/-- A concrete configured target (the second entry of `config.services`),
used to instantiate theorems at concrete inputs. -/
def nasaTarget : ServiceTarget :=
  { name := "NASA App"
    url := "https://majortomtogroundcontrol.duckdns.org"
    expectedStatus := 200
    timeout := 5000 }

/-! The claims -/

/-- Claim C1: a probe whose timer fires before any response yields a
ProbeResult with status TIMEOUT and responseTime equal to the configured
response-time threshold plus one, and the alert engine therefore emits the
MEDIUM response-time alert for that result. -/
theorem timeout_probe_trips_response_time_alert (th : Thresholds)
    (s : ServiceTarget) (now : String) :
    (checkService th s .timeout).status = .TIMEOUT ∧
    (checkService th s .timeout).responseTime = some (th.responseTime + 1) ∧
    { level := .MEDIUM
      service := s.name
      message := s.name ++ " response time (" ++ toString (th.responseTime + 1)
        ++ "ms) exceeds threshold (" ++ toString th.responseTime ++ "ms)"
      timestamp := now } ∈
      generateAlerts th [checkService th s .timeout] none now := by
  refine ⟨rfl, rfl, ?_⟩
  simp [generateAlerts, serviceAlerts, statusAlerts, responseTimeAlerts,
    certAlerts, containerAlerts, checkService, Nat.lt_succ_self]

/-- Claim C6: a missing or unparseable metrics file makes `load` yield the
default empty snapshot rather than an error, and a first cycle started
from that state still completes and persists a snapshot that reads back
as the computed one. -/
theorem corrupt_load_yields_default_and_cycle_persists (th : Thresholds)
    (results : List ProbeResult) (co : ContainerOutcome) (now : String) :
    load .absent = initialMetrics ∧
    load .malformed = initialMetrics ∧
    load (save (runCheck th (load .malformed) results co now)) =
      runCheck th initialMetrics results co now :=
  ⟨rfl, rfl, by simp [load, save, decodeMetrics_encodeMetrics]⟩

/-- Claim C7: loading the metrics file immediately after saving a snapshot
reproduces the saved snapshot (save/load round-trip). -/
theorem save_load_roundtrip (m : Metrics) : load (save m) = m := by
  simp [load, save, decodeMetrics_encodeMetrics]

/-- Claim C9 (counterexample): the TIMEOUT path of `checkService` resolves
a ProbeResult with no timestamp field, refuting "every path includes a
timestamp" at a concrete configured target. -/
theorem timeout_result_lacks_timestamp :
    (checkService configThresholds nasaTarget .timeout).timestamp = none :=
  rfl

/-- Claim C9 (amended): the response paths (HEALTHY/UNHEALTHY) and the
ERROR path of `checkService` stamp the result with the current ISO
timestamp; the TIMEOUT path's result carries no timestamp field. -/
theorem probe_timestamp_per_path (th : Thresholds) (s : ServiceTarget)
    (code elapsed : Nat) (peer : Option RawCert) (nowMs : Int)
    (nowIso msg : String) :
    (checkService th s (.response code elapsed peer nowMs nowIso)).timestamp =
      some nowIso ∧
    (checkService th s (.connError msg nowIso)).timestamp = some nowIso ∧
    (checkService th s .timeout).timestamp = none :=
  ⟨rfl, rfl, rfl⟩

/-- Claim C10: an ERROR-path result carries no responseTime field, so the
response-time rule never fires and no MEDIUM alert is emitted for that
service. -/
theorem error_result_no_medium_alert (th : Thresholds) (s : ServiceTarget)
    (msg nowIso now : String) :
    (checkService th s (.connError msg nowIso)).status = .ERROR ∧
    (checkService th s (.connError msg nowIso)).responseTime = none ∧
    responseTimeAlerts th now (checkService th s (.connError msg nowIso)) =
      [] ∧
    (generateAlerts th [checkService th s (.connError msg nowIso)] none
        now).filter (fun a => a.level = Level.MEDIUM) = [] := by
  refine ⟨rfl, rfl, rfl, ?_⟩
  simp [generateAlerts, serviceAlerts, statusAlerts, responseTimeAlerts,
    certAlerts, containerAlerts, checkService, List.filter_cons]

/-- Claim C2: after a cycle that probed every configured target, the
snapshot's service mapping has exactly one entry under each configured
target's name (given the pre-cycle mapping was duplicate-free, as any
JavaScript object is). -/
theorem snapshot_one_entry_per_target (th : Thresholds) (m : Metrics)
    (services : List ServiceTarget) (outs : ServiceTarget → ProbeOutcome)
    (co : ContainerOutcome) (now : String) (t : ServiceTarget)
    (h1 : (m.services.map Prod.fst).Nodup) (h2 : t ∈ services) :
    countKey
      (runCheck th m (probeAll th services outs) co now).services t.name =
      1 := by
  have hmem : t.name ∈ (probeAll th services outs).map ProbeResult.name := by
    rw [probeAll_names]
    exact List.mem_map_of_mem ServiceTarget.name h2
  simp only [runCheck]
  rw [countKey_foldl_upsert _ _ _ h1, if_pos hmem]

/-- Witness for claim C2: the full configured service list, probed from the
empty initial snapshot, leaves exactly one entry under "NASA App". -/
theorem snapshot_one_entry_per_target_witness :
    (initialMetrics.services.map Prod.fst).Nodup ∧
    nasaTarget ∈ configServices ∧
    countKey
      (runCheck configThresholds initialMetrics
        (probeAll configThresholds configServices fun _ => .timeout)
        (.err ("docker unreachable")) ("T")).services nasaTarget.name = 1 :=
  ⟨by decide, by decide,
    snapshot_one_entry_per_target configThresholds initialMetrics
      configServices (fun _ => .timeout) (.err ("docker unreachable")) ("T")
      nasaTarget (by decide) (by decide)⟩

/-- Claim C3: a result with status ERROR, UNHEALTHY or TIMEOUT makes
rule 1 emit exactly one HIGH alert with message
"{name} is {status}: {error-or-statuscode}", and the engine output for
that result is exactly that alert followed by the other rules' output. -/
theorem bad_status_yields_one_high_alert (th : Thresholds) (now : String)
    (r : ProbeResult) (containers : Option (List (String × String)))
    (h : r.status = .ERROR ∨ r.status = .UNHEALTHY ∨ r.status = .TIMEOUT) :
    statusAlerts now r =
      [{ level := .HIGH
         service := r.name
         message := statusMessage r
         timestamp := now }] ∧
    generateAlerts th [r] containers now =
      { level := .HIGH
        service := r.name
        message := statusMessage r
        timestamp := now } ::
        (responseTimeAlerts th now r ++ certAlerts th now r ++
          containerAlerts now containers) := by
  constructor
  · simp [statusAlerts, h]
  · simp [generateAlerts, serviceAlerts, statusAlerts, h]

/-- Witness for claim C3: a 404 response against an expected 200 yields
UNHEALTHY and the engine output is exactly one HIGH alert naming the
service and the code 404. -/
theorem bad_status_yields_one_high_alert_witness :
    ((checkService configThresholds nasaTarget
        (.response 404 120 none 0 ("T1"))).status = .ERROR ∨
      (checkService configThresholds nasaTarget
        (.response 404 120 none 0 ("T1"))).status = .UNHEALTHY ∨
      (checkService configThresholds nasaTarget
        (.response 404 120 none 0 ("T1"))).status = .TIMEOUT) ∧
    generateAlerts configThresholds
        [checkService configThresholds nasaTarget
          (.response 404 120 none 0 ("T1"))] none ("T") =
      [{ level := .HIGH
         service := "NASA App"
         message := "NASA App is UNHEALTHY: 404"
         timestamp := "T" }] := by
  refine ⟨by decide, ?_⟩
  rw [(bad_status_yields_one_high_alert configThresholds ("T")
    (checkService configThresholds nasaTarget
      (.response 404 120 none 0 ("T1"))) none (by decide)).2]
  rfl

/-- Claim C4: for a result carrying certificate info, rule 3 emits exactly
one HIGH alert naming the exact day count if and only if the
days-to-expiration is strictly below the configured threshold, and the
engine output for the result decomposes into the three rules. -/
theorem cert_alert_iff_below_threshold (th : Thresholds) (now : String)
    (r : ProbeResult) (c : CertInfo) (h : r.certificate = some c) :
    (certAlerts th now r =
        [{ level := .HIGH
           service := r.name
           message := certMessage r.name c.daysToExpiration
           timestamp := now }] ↔
      c.daysToExpiration < (th.certExpirationDays : Int)) ∧
    (certAlerts th now r = [] ↔
      ¬c.daysToExpiration < (th.certExpirationDays : Int)) ∧
    generateAlerts th [r] none now =
      statusAlerts now r ++ responseTimeAlerts th now r ++
        certAlerts th now r := by
  refine ⟨?_, ?_, by simp [generateAlerts, serviceAlerts, containerAlerts]⟩ <;>
    by_cases hd : c.daysToExpiration < (th.certExpirationDays : Int) <;>
      simp [certAlerts, h, hd]

/-- Witness for claim C4: with threshold 14, days-to-expiration 5 yields
exactly one HIGH alert mentioning "5 days" and days-to-expiration 30
yields no certificate alert. -/
theorem cert_alert_iff_below_threshold_witness :
    ({ name := "NASA App"
       url := "https://majortomtogroundcontrol.duckdns.org"
       status := .HEALTHY
       statusCode := some 200
       responseTime := some 100
       certificate := some { issuer := "R3", expirationDate := "E", daysToExpiration := 5 }
       error := none
       timestamp := some "T1" } : ProbeResult).certificate =
      some { issuer := "R3", expirationDate := "E", daysToExpiration := 5 } ∧
    certAlerts configThresholds ("T")
      { name := "NASA App"
        url := "https://majortomtogroundcontrol.duckdns.org"
        status := .HEALTHY
        statusCode := some 200
        responseTime := some 100
        certificate := some { issuer := "R3", expirationDate := "E", daysToExpiration := 5 }
        error := none
        timestamp := some "T1" } =
      [{ level := .HIGH
         service := "NASA App"
         message := "SSL Certificate for NASA App expires in 5 days"
         timestamp := "T" }] ∧
    certAlerts configThresholds ("T")
      { name := "NASA App"
        url := "https://majortomtogroundcontrol.duckdns.org"
        status := .HEALTHY
        statusCode := some 200
        responseTime := some 100
        certificate := some { issuer := "R3", expirationDate := "E", daysToExpiration := 30 }
        error := none
        timestamp := some "T1" } = [] := by
  refine ⟨rfl, ?_, ?_⟩
  · have h5 := (cert_alert_iff_below_threshold configThresholds ("T")
      { name := "NASA App"
        url := "https://majortomtogroundcontrol.duckdns.org"
        status := .HEALTHY
        statusCode := some 200
        responseTime := some 100
        certificate := some { issuer := "R3", expirationDate := "E", daysToExpiration := 5 }
        error := none
        timestamp := some "T1" }
      { issuer := "R3", expirationDate := "E", daysToExpiration := 5 }
      rfl).1.mpr (by decide)
    rw [h5]
    decide
  · exact (cert_alert_iff_below_threshold configThresholds ("T")
      { name := "NASA App"
        url := "https://majortomtogroundcontrol.duckdns.org"
        status := .HEALTHY
        statusCode := some 200
        responseTime := some 100
        certificate := some { issuer := "R3", expirationDate := "E", daysToExpiration := 30 }
        error := none
        timestamp := some "T1" }
      { issuer := "R3", expirationDate := "E", daysToExpiration := 30 }
      rfl).2.1.mpr (by decide)

/-- Claim C5: with a duplicate-free container mapping present, the engine
emits exactly one HIGH not-running alert for a container whose status
string lacks the substring "Up ", and none for one whose status contains
it. -/
theorem container_alert_iff_not_up (th : Thresholds) (now : String)
    (cs : List (String × String)) (n s : String)
    (hnd : (cs.map Prod.fst).Nodup) (hmem : (n, s) ∈ cs) :
    (generateAlerts th [] (some cs) now).filter (fun a => a.service = n) =
      if jsIncludes s ("Up ") then [] else
        [{ level := .HIGH
           service := n
           message := "Container " ++ n ++ " is not running: " ++ s
           timestamp := now }] := by
  have h := containerAlerts_filter_mem cs n s now hnd hmem
  simpa [generateAlerts] using h

/-- Witness for claim C5: {"web": "Up 2 hours",
"db": "Exited (1) 3 minutes ago"} produces exactly one HIGH alert for
"db" and none for "web". -/
theorem container_alert_iff_not_up_witness :
    (([("web", "Up 2 hours"),
        ("db", "Exited (1) 3 minutes ago")].map Prod.fst).Nodup ∧
      ("db", "Exited (1) 3 minutes ago") ∈
        [("web", "Up 2 hours"), ("db", "Exited (1) 3 minutes ago")]) ∧
    (generateAlerts configThresholds []
        (some [("web", "Up 2 hours"), ("db", "Exited (1) 3 minutes ago")])
        ("T")).filter (fun a => a.service = "db") =
      [{ level := .HIGH
         service := "db"
         message := "Container db is not running: Exited (1) 3 minutes ago"
         timestamp := "T" }] ∧
    (generateAlerts configThresholds []
        (some [("web", "Up 2 hours"), ("db", "Exited (1) 3 minutes ago")])
        ("T")).filter (fun a => a.service = "web") = [] := by
  refine ⟨⟨by decide, by decide⟩, ?_, ?_⟩
  · rw [container_alert_iff_not_up configThresholds ("T")
      [("web", "Up 2 hours"), ("db", "Exited (1) 3 minutes ago")]
      ("db") ("Exited (1) 3 minutes ago") (by decide) (by decide)]
    decide
  · rw [container_alert_iff_not_up configThresholds ("T")
      [("web", "Up 2 hours"), ("db", "Exited (1) 3 minutes ago")]
      ("web") ("Up 2 hours") (by decide) (by decide)]
    decide

/-- Claim C8: a response arriving before the timeout with the expected
status code yields a HEALTHY result and rule 1 emits no status alert for
it; the engine output for the result is only the other rules'. -/
theorem healthy_probe_no_status_alert (th : Thresholds) (s : ServiceTarget)
    (code elapsed : Nat) (peer : Option RawCert) (nowMs : Int)
    (nowIso now : String) (containers : Option (List (String × String)))
    (h : code = s.expectedStatus) :
    (checkService th s (.response code elapsed peer nowMs nowIso)).status =
      .HEALTHY ∧
    statusAlerts now
      (checkService th s (.response code elapsed peer nowMs nowIso)) = [] ∧
    generateAlerts th
        [checkService th s (.response code elapsed peer nowMs nowIso)]
        containers now =
      responseTimeAlerts th now
          (checkService th s (.response code elapsed peer nowMs nowIso)) ++
        certAlerts th now
          (checkService th s (.response code elapsed peer nowMs nowIso)) ++
        containerAlerts now containers := by
  subst h
  refine ⟨by simp [checkService], ?_, ?_⟩
  · simp [statusAlerts, checkService]
  · simp [generateAlerts, serviceAlerts, statusAlerts, checkService]

/-- Witness for claim C8: a 200 response against an expected 200, fast and
without a certificate, yields HEALTHY and an empty alert list. -/
theorem healthy_probe_no_status_alert_witness :
    (200 = nasaTarget.expectedStatus) ∧
    (checkService configThresholds nasaTarget
      (.response 200 120 none 0 ("T1"))).status = .HEALTHY ∧
    generateAlerts configThresholds
      [checkService configThresholds nasaTarget
        (.response 200 120 none 0 ("T1"))] none ("T") = [] := by
  have h := healthy_probe_no_status_alert configThresholds nasaTarget 200 120
    none 0 ("T1") ("T") none (by decide)
  refine ⟨by decide, h.1, ?_⟩
  rw [h.2.2]
  rfl

end Monitoring
